import Mathlib

/-!
Shallow embedding of the LifeSaver emergency-response orchestrator
(`src/orchestrator.py`, `src/tools/protocol.py`).

Modelling conventions:
* Python dicts with a fixed shape become structures; `PROTOCOLS` becomes an
  association list keyed by strings (all keys distinct, like the source dict).
* The four generation-collaborator calls (`_run_and_get_text`) are external:
  the text each returns is a parameter of the embedded operation.
* `json.loads` of the triage output is external stdlib: its outcome is a
  parameter of type `Except Unit JsonValue` (`.error ()` = `JSONDecodeError`).
* Python values parsed from JSON are modelled by `JsonValue`; JSON numbers are
  rationals (Python float formatting in error messages is approximated by
  `toString`, a corner no behaviour here depends on).
* Python mutates the context in place and may then raise; each fallible
  operation therefore returns `Except (PyError × LifeSaverContext) _`,
  carrying the mutated context also on the raising paths.
-/

/-- A Python value decoded from JSON (`json.loads` output). Object fields are
in insertion order with distinct keys, as produced by the stdlib decoder. -/
inductive JsonValue : Type where
  | null : JsonValue
  | bool (b : Bool) : JsonValue
  | num (q : ℚ) : JsonValue
  | str (s : String) : JsonValue
  | arr (xs : List JsonValue) : JsonValue
  | obj (fields : List (String × JsonValue)) : JsonValue

/-- Python truthiness (`bool(v)`) of a decoded JSON value: `None`, `False`,
zero, the empty string, the empty list and the empty dict are falsy. -/
def truthy : JsonValue → Bool
  | .null => false
  | .bool b => b
  | .num q => !(q == 0)
  | .str s => !(s == "")
  | .arr xs => !xs.isEmpty
  | .obj fs => !fs.isEmpty

/-- Python `d.get(key)` on a decoded JSON value: on a dict it returns the
field's value or `None` when absent; on any non-dict value Python raises
`AttributeError` (there is no `.get` on lists, strings, numbers, ...). -/
def jsonGet (v : JsonValue) (key : String) : Except Unit JsonValue :=
  match v with
  | .obj fields => .ok ((fields.lookup key).getD .null)
  | _ => .error ()

/-- The protocol record stored in `PROTOCOLS` (`src/tools/protocol.py`). -/
structure ProtocolRecord where
  title : String
  steps : List String
  notes : List String
  stop_condition : String
deriving DecidableEq

/-- Result of `get_protocol`: a dict with `status = "success"` and `data`, or
`status = "error"` and `error_message`. -/
inductive GetProtocolResult : Type where
  | success (data : ProtocolRecord) : GetProtocolResult
  | error (error_message : String) : GetProtocolResult
deriving DecidableEq

def cardiac_arrest_protocol : ProtocolRecord :=
  { title := "Suspected Cardiac Arrest (Adult)"
    steps :=
      [ "1. Call emergency services immediately (or ask someone nearby to call)."
      , "2. Place the person on a firm, flat surface."
      , "3. Begin chest compressions at a rate of 100–120 per minute."
      , "4. Push hard and fast in the center of the chest allowing full recoil."
      , "5. If an AED is available, have someone bring and apply it following the prompts." ]
    notes :=
      [ "If you are alone, prioritize calling emergency services on speaker while starting compressions."
      , "Do not stop compressions unless you are too exhausted, someone takes over, or a medical professional tells you to stop." ]
    stop_condition := "Emergency responders arrive and take over." }

def choking_protocol : ProtocolRecord :=
  { title := "Severe Choking (Adult)"
    steps :=
      [ "1. Ask the person if they are choking and if they can speak or cough."
      , "2. If they cannot cough, speak, or breathe, stand behind them."
      , "3. Perform abdominal thrusts (Heimlich maneuver) until the object is expelled."
      , "4. If the person becomes unresponsive, gently lower them to the ground and begin CPR." ]
    notes :=
      [ "If they can cough or speak, encourage them to continue coughing."
      , "Do not perform blind finger sweeps in the mouth." ]
    stop_condition := "Object is expelled and breathing improves, or emergency services arrive." }

def possible_stroke_protocol : ProtocolRecord :=
  { title := "Possible Stroke (FAST Assessment)"
    steps :=
      [ "1. Check FACE: Ask them to smile — is one side drooping?"
      , "2. Check ARMS: Ask them to raise both arms — does one drift downward?"
      , "3. Check SPEECH: Ask them to repeat a simple phrase — is speech slurred or strange?"
      , "4. Time: Note the time symptoms started."
      , "5. Call emergency services immediately and describe all symptoms and onset time." ]
    notes :=
      [ "Do not give them anything to eat or drink."
      , "Remain with them and monitor breathing and responsiveness." ]
    stop_condition := "Emergency services arrive and take over." }

def anaphylaxis_protocol : ProtocolRecord :=
  { title := "Suspected Anaphylaxis (Severe Allergic Reaction)"
    steps :=
      [ "1. Check for signs: swelling of lips/face, difficulty breathing, hives, dizziness."
      , "2. If an epinephrine auto-injector (EpiPen) is available, assist the person to use it."
      , "3. Call emergency services immediately."
      , "4. Have the person lie down and elevate legs if they feel faint, unless this worsens breathing."
      , "5. If symptoms persist and a second auto-injector is available, it may be used per instructions (usually after 5–15 minutes)." ]
    notes :=
      [ "Even if symptoms improve after epinephrine, medical evaluation is required."
      , "Do not make the person walk or stand if they feel weak or dizzy." ]
    stop_condition := "Emergency services arrive and take over." }

def unconscious_but_breathing_protocol : ProtocolRecord :=
  { title := "Unconscious but Breathing (Recovery Position)"
    steps :=
      [ "1. Call emergency services and report the situation."
      , "2. Check breathing: look for chest rise, listen near nose/mouth, feel for air."
      , "3. If breathing is normal, place the person in the recovery position on their side."
      , "4. Tilt the head slightly back to keep the airway open."
      , "5. Regularly re-check breathing until help arrives." ]
    notes :=
      [ "If at any point breathing stops or becomes abnormal, begin CPR."
      , "If there is suspected spinal injury, move the person carefully." ]
    stop_condition := "Emergency services arrive and take over." }

/-- The `PROTOCOLS` dict of `get_protocol`, as an association list. -/
def PROTOCOLS : List (String × ProtocolRecord) :=
  [ ("cardiac_arrest", cardiac_arrest_protocol)
  , ("choking", choking_protocol)
  , ("possible_stroke", possible_stroke_protocol)
  , ("anaphylaxis", anaphylaxis_protocol)
  , ("unconscious_but_breathing", unconscious_but_breathing_protocol) ]

/-- `get_protocol(emergency_type)` of `src/tools/protocol.py`:
`PROTOCOLS.get(emergency_type)`; `None` (and a falsy dict, which cannot occur
since every record is non-empty) yields the error dict, otherwise the success
dict wrapping the record. -/
def get_protocol (emergency_type : String) : GetProtocolResult :=
  match PROTOCOLS.lookup emergency_type with
  | none => .error ("Unknown emergency_type: " ++ emergency_type ++ ".")
  | some protocol => .success protocol

/-- Applying `get_protocol` to the (possibly non-string) Python value the
orchestrator stores as `ctx.emergency_type`: `PROTOCOLS.get` raises
`TypeError` on an unhashable key (a list or dict); a hashable non-string key
matches none of the five string keys, so the error dict is returned
(booleans and numbers compare equal only to numbers; `f"{v}"` renders
`None`/`True`/`False`/the number). -/
def get_protocol_py : JsonValue → Except Unit GetProtocolResult
  | .arr _ => .error ()
  | .obj _ => .error ()
  | .str s => .ok (get_protocol s)
  | .null => .ok (.error "Unknown emergency_type: None.")
  | .bool b =>
      .ok (.error ("Unknown emergency_type: " ++ (if b then "True" else "False") ++ "."))
  | .num q => .ok (.error ("Unknown emergency_type: " ++ toString q ++ "."))

/-- The payload of an event record: free text, a parsed JSON value, or a
`get_protocol` response dict. -/
inductive EventContent : Type where
  | text (s : String) : EventContent
  | json (v : JsonValue) : EventContent
  | lookup (r : GetProtocolResult) : EventContent

/-- One entry of `ctx.events`: `{"type": ..., "content": ...}`. -/
structure Event where
  type : String
  content : EventContent

/-- The `LifeSaverContext` dataclass of `src/orchestrator.py`. The
`emergency_type` field is annotated `Optional[str]` in the source but Python
does not enforce it: `triage` stores whatever truthy value the parsed JSON
held, so it is modelled as an optional `JsonValue`. `current_step_index` is a
Python int, hence `Int`. -/
structure LifeSaverContext where
  session_id : String
  emergency_type : Option JsonValue := none
  protocol : Option ProtocolRecord := none
  current_step_index : Int := 0
  done : Bool := false
  events : List Event := []

/-- Exceptions the orchestrator's operations can raise. -/
inductive PyError : Type where
  | runtimeError (msg : String) : PyError
  | attributeError : PyError
  | typeError : PyError
  | indexError : PyError

/-- `LifeSaverOrchestrator.start_session`: a fresh context holding only the
session id (all other fields at their dataclass defaults). -/
def start_session (session_id : String) : LifeSaverContext :=
  { session_id := session_id }

/-- The fallback payload substituted when `json.loads(triage_text)` raises
`JSONDecodeError`. -/
def fallbackTriageJson : JsonValue :=
  .obj
    [ ("emergency_type", .null)
    , ("confidence", .num 0)
    , ("summary", .str "Failed to parse triage JSON.")
    , ("red_flags", .arr []) ]

/-- `LifeSaverOrchestrator.triage(ctx, user_message)`.

`triage_text` is the triage collaborator's final text
(`_run_and_get_text(triage_runner, ...)`, external) and `parsed` is the
outcome of `json.loads(triage_text)` (`.error ()` = `JSONDecodeError`, the
only exception caught).

Appends the `user_message` and `triage_output_raw` events; substitutes the
fallback payload on decode failure; appends `triage_output_parsed`; evaluates
`triage_json.get("emergency_type") or "unconscious_but_breathing"` (raising
`AttributeError` when the parsed value is not a dict); stores it as
`ctx.emergency_type`; calls `get_protocol` on it and appends the
`protocol_lookup` event; raises `RuntimeError` when the lookup's status is
not success; otherwise sets `protocol`, resets `current_step_index` to 0 and
clears `done`. -/
def triage (parsed : Except Unit JsonValue) (triage_text : String)
    (ctx : LifeSaverContext) (user_message : String) :
    Except (PyError × LifeSaverContext) LifeSaverContext :=
  let ctx1 : LifeSaverContext :=
    { ctx with events := ctx.events ++
        [ { type := "user_message", content := .text user_message }
        , { type := "triage_output_raw", content := .text triage_text } ] }
  let triage_json : JsonValue :=
    match parsed with
    | .ok j => j
    | .error _ => fallbackTriageJson
  let ctx2 : LifeSaverContext :=
    { ctx1 with events := ctx1.events ++
        [ { type := "triage_output_parsed", content := .json triage_json } ] }
  match jsonGet triage_json "emergency_type" with
  | .error _ => .error (.attributeError, ctx2)
  | .ok fieldValue =>
    let et : JsonValue :=
      if truthy fieldValue then fieldValue else .str "unconscious_but_breathing"
    let ctx3 : LifeSaverContext := { ctx2 with emergency_type := some et }
    match get_protocol_py et with
    | .error _ => .error (.typeError, ctx3)
    | .ok protocol_resp =>
      let ctx4 : LifeSaverContext :=
        { ctx3 with events := ctx3.events ++
            [ { type := "protocol_lookup", content := .lookup protocol_resp } ] }
      match protocol_resp with
      | .error msg =>
          .error (.runtimeError ("Protocol lookup failed: " ++ msg), ctx4)
      | .success data =>
          .ok { ctx4 with protocol := some data, current_step_index := 0, done := false }

/-- Python `steps[i]`: a negative index counts from the end; an index out of
range on either side raises `IndexError` (`none`). -/
def pyListGet (xs : List String) (i : Int) : Option String :=
  let j : Int := if i < 0 then i + xs.length else i
  if j < 0 then none else xs.get? j.toNat

/-- A character Python's `str.strip()` removes: the CPython str whitespace
class — tab, newline, vertical tab, form feed, carriage return, the file,
group, record and unit separators, space, next line, no-break space, ogham
space mark, the en-quad..hair-space range, line separator, paragraph
separator, narrow no-break space, medium mathematical space and ideographic
space. -/
def pyIsSpace (c : Char) : Bool :=
  c == ' ' || c == '\t' || c == '\n' || c == '\r' || c == '\x0b' || c == '\x0c' ||
  c == '\x1c' || c == '\x1d' || c == '\x1e' || c == '\x1f' || c == '\x85' ||
  c == '\xa0' || c == '\u1680' ||
  c == '\u2000' || c == '\u2001' || c == '\u2002' || c == '\u2003' ||
  c == '\u2004' || c == '\u2005' || c == '\u2006' || c == '\u2007' ||
  c == '\u2008' || c == '\u2009' || c == '\u200A' ||
  c == '\u2028' || c == '\u2029' || c == '\u202F' || c == '\u205F' || c == '\u3000'

/-- Python `s.strip()`: drop leading and trailing whitespace. -/
def pyStrip (s : String) : String :=
  String.mk (((s.toList.dropWhile pyIsSpace).reverse.dropWhile pyIsSpace).reverse)

/-- The fixed reassurance sentence substituted for a blank calming output
(source string, including its typographic apostrophe). -/
def fallbackCalming : String :=
  "You’re doing the right thing. Keep going with the current step; help is on the way."

/-- The dict returned by `next_instruction` (its `"ctx"` entry carries the
mutated context). -/
structure NextInstructionResult where
  instruction_message : String
  calming_message : String
  done : Bool
  ctx : LifeSaverContext

/-- `LifeSaverOrchestrator.next_instruction(ctx, user_update)`.

`instruction_text` and `calming_raw` are the instruction and calming
collaborators' final texts (external).

Raises `RuntimeError` when `ctx.protocol` is unset (`not ctx.protocol`; a
falsy protocol dict is not representable here and never produced). Appends
the `user_update` and `instruction_output_raw` events; computes
`next_step_index = min(ctx.current_step_index + 1, len(steps) - 1)` and
`done = next_step_index == len(steps) - 1`; reads `steps[next_step_index]`
(raising `IndexError` out of range); stores the new index and `done`;
appends the `calming_output_raw` event with the raw calming text; substitutes
the fallback sentence when that text is empty or strips to empty; returns the
result dict. -/
def next_instruction (instruction_text : String) (calming_raw : String)
    (ctx : LifeSaverContext) (user_update : String) :
    Except (PyError × LifeSaverContext) NextInstructionResult :=
  match ctx.protocol with
  | none =>
      .error (.runtimeError "Protocol is not set. Did you forget to run triage()?", ctx)
  | some protocol =>
    let steps : List String := protocol.steps
    let ctx1 : LifeSaverContext :=
      { ctx with events := ctx.events ++
          [ { type := "user_update", content := .text user_update } ] }
    let ctx2 : LifeSaverContext :=
      { ctx1 with events := ctx1.events ++
          [ { type := "instruction_output_raw", content := .text instruction_text } ] }
    let next_step_index : Int := min (ctx.current_step_index + 1) ((steps.length : Int) - 1)
    let done : Bool := next_step_index == (steps.length : Int) - 1
    match pyListGet steps next_step_index with
    | none => .error (.indexError, ctx2)
    | some instruction_message =>
      let ctx3 : LifeSaverContext :=
        { ctx2 with current_step_index := next_step_index, done := done }
      let ctx4 : LifeSaverContext :=
        { ctx3 with events := ctx3.events ++
            [ { type := "calming_output_raw", content := .text calming_raw } ] }
      let calming_message : String :=
        if calming_raw == "" || pyStrip calming_raw == "" then fallbackCalming else calming_raw
      .ok { instruction_message := instruction_message
            calming_message := calming_message
            done := ctx3.done
            ctx := ctx4 }

/-- `LifeSaverOrchestrator.generate_emt_report(ctx)`.

`report_text` is the EMT-report collaborator's final text (external; the
serialized event log `json.dumps(ctx.events)` is its input). The operation
performs no precondition check: it appends the `emt_report` event and returns
the report. The pair also returns the mutated context (Python mutates it in
place). -/
def generate_emt_report (report_text : String) (ctx : LifeSaverContext) :
    String × LifeSaverContext :=
  (report_text,
    { ctx with events := ctx.events ++
        [ { type := "emt_report", content := .text report_text } ] })

/-- Extract the context after a `triage` call, whether it returned normally
or raised (Python mutates the context in place in both cases). -/
def ctxAfterTriage (r : Except (PyError × LifeSaverContext) LifeSaverContext) :
    LifeSaverContext :=
  match r with
  | .ok c => c
  | .error (_, c) => c

/-- Whether a `triage` call raised. -/
def triageRaised (r : Except (PyError × LifeSaverContext) LifeSaverContext) : Bool :=
  match r with
  | .ok _ => false
  | .error _ => true

/-- The exception (if any) a `triage` call raised. -/
def triageErr (r : Except (PyError × LifeSaverContext) LifeSaverContext) :
    Option PyError :=
  match r with
  | .ok _ => none
  | .error (e, _) => some e

/-- Extract the result of a `next_instruction` call that returned normally
(a dummy result wrapping the mutated context on the raising paths). -/
def resOfNI (r : Except (PyError × LifeSaverContext) NextInstructionResult) :
    NextInstructionResult :=
  match r with
  | .ok res => res
  | .error (_, c) =>
      { instruction_message := "", calming_message := "", done := false, ctx := c }

/-- Contexts reachable from `start_session` by any sequence of orchestrator
operations with arbitrary collaborator outputs and parse outcomes, including
the mutated states left behind by calls that raised. -/
inductive Reachable : LifeSaverContext → Prop where
  | start (sid : String) : Reachable (start_session sid)
  | triage_ok {c c' : LifeSaverContext} {parsed : Except Unit JsonValue} {t m : String} :
      Reachable c → triage parsed t c m = .ok c' → Reachable c'
  | triage_err {c c' : LifeSaverContext} {parsed : Except Unit JsonValue}
      {t m : String} {e : PyError} :
      Reachable c → triage parsed t c m = .error (e, c') → Reachable c'
  | ni_ok {c : LifeSaverContext} {it craw u : String} {r : NextInstructionResult} :
      Reachable c → next_instruction it craw c u = .ok r → Reachable r.ctx
  | ni_err {c c' : LifeSaverContext} {it craw u : String} {e : PyError} :
      Reachable c → next_instruction it craw c u = .error (e, c') → Reachable c'
  | report {c : LifeSaverContext} (rt : String) :
      Reachable c → Reachable (generate_emt_report rt c).2

/-- A context as `triage` leaves it after classifying a cardiac arrest:
protocol set, step index 0, `done` cleared (used as a concrete test input). -/
def triagedCardiacCtx : LifeSaverContext :=
  { session_id := "s"
    emergency_type := some (.str "cardiac_arrest")
    protocol := some cardiac_arrest_protocol }

/-! ## Helper lemmas -/

/-- A `triage` call that returns normally always leaves the emergency type
and protocol set, the step index 0 and `done` cleared. -/
theorem triage_ok_state {parsed : Except Unit JsonValue} {t m : String}
    {c c' : LifeSaverContext} (h : triage parsed t c m = .ok c') :
    c'.emergency_type.isSome = true ∧ c'.protocol.isSome = true ∧
    c'.current_step_index = 0 ∧ c'.done = false := by
  unfold triage at h
  dsimp only at h
  split at h
  · exact absurd h (by simp)
  · split at h
    · exact absurd h (by simp)
    · split at h
      · exact absurd h (by simp)
      · injection h with h
        subst h
        simp

/-- A `triage` call that raises leaves the protocol unchanged and either
leaves the emergency type unchanged (raise before the assignment) or set. -/
theorem triage_err_state {parsed : Except Unit JsonValue} {t m : String}
    {c c' : LifeSaverContext} {e : PyError}
    (h : triage parsed t c m = .error (e, c')) :
    c'.protocol = c.protocol ∧
    (c'.emergency_type = c.emergency_type ∨ c'.emergency_type.isSome = true) := by
  unfold triage at h
  dsimp only at h
  split at h
  · injection h with h
    injection h with h1 h2
    subst h2
    exact ⟨rfl, Or.inl rfl⟩
  · split at h
    · injection h with h
      injection h with h1 h2
      subst h2
      exact ⟨rfl, Or.inr rfl⟩
    · split at h
      · injection h with h
        injection h with h1 h2
        subst h2
        exact ⟨rfl, Or.inr rfl⟩
      · exact absurd h (by simp)

/-- A `triage` call that returns normally appends exactly the four triage
event kinds, in order, to the caller's event log. -/
theorem triage_ok_event_kinds {parsed : Except Unit JsonValue} {t m : String}
    {c c' : LifeSaverContext} (h : triage parsed t c m = .ok c') :
    c'.events.map (fun e => e.type) = c.events.map (fun e => e.type) ++
      ["user_message", "triage_output_raw", "triage_output_parsed", "protocol_lookup"] := by
  unfold triage at h
  dsimp only at h
  split at h
  · exact absurd h (by simp)
  · split at h
    · exact absurd h (by simp)
    · split at h
      · exact absurd h (by simp)
      · injection h with h
        subst h
        simp

/-- A `next_instruction` call that returns normally: the protocol and
emergency type are untouched, exactly the three events are appended in order
(the calming event holding the raw collaborator text), and the returned
calming message is the raw text unless it is empty or strips to empty. -/
theorem ni_ok_spec {it craw u : String} {ctx : LifeSaverContext}
    {r : NextInstructionResult}
    (h : next_instruction it craw ctx u = .ok r) :
    r.ctx.protocol = ctx.protocol ∧
    r.ctx.emergency_type = ctx.emergency_type ∧
    r.ctx.events = ctx.events ++
      [ { type := "user_update", content := .text u }
      , { type := "instruction_output_raw", content := .text it }
      , { type := "calming_output_raw", content := .text craw } ] ∧
    r.calming_message =
      (if craw == "" || pyStrip craw == "" then fallbackCalming else craw) := by
  unfold next_instruction at h
  dsimp only at h
  split at h
  · exact absurd h (by simp)
  · split at h
    · exact absurd h (by simp)
    · injection h with h
      subst h
      refine ⟨rfl, rfl, by simp, rfl⟩

/-- A `next_instruction` call that raises leaves the protocol and emergency
type unchanged. -/
theorem ni_err_state {it craw u : String} {ctx c' : LifeSaverContext} {e : PyError}
    (h : next_instruction it craw ctx u = .error (e, c')) :
    c'.protocol = ctx.protocol ∧ c'.emergency_type = ctx.emergency_type := by
  unfold next_instruction at h
  dsimp only at h
  split at h
  · injection h with h
    injection h with h1 h2
    subst h2
    exact ⟨rfl, rfl⟩
  · split at h
    · injection h with h
      injection h with h1 h2
      subst h2
      exact ⟨rfl, rfl⟩
    · exact absurd h (by simp)

/-- Python indexing into a list succeeds for every in-range non-negative
index. -/
theorem pyListGet_some (xs : List String) (i : Int) (h0 : 0 ≤ i)
    (hl : i < (xs.length : Int)) : ∃ s, pyListGet xs i = some s := by
  unfold pyListGet
  have hni : ¬ i < 0 := not_lt.mpr h0
  simp only [if_neg hni]
  have ht : i.toNat < xs.length := by omega
  cases hx : xs.get? i.toNat with
  | none =>
      rw [List.get?_eq_none] at hx
      omega
  | some s => exact ⟨s, rfl⟩

/-- On a context whose protocol is set and whose step index is a valid index
into its steps, `next_instruction` returns normally, moves the index to
`min(index + 1, len(steps) - 1)` and recomputes `done` as equality with the
last index. -/
theorem ni_success {it craw u : String} {ctx : LifeSaverContext} {p : ProtocolRecord}
    (hp : ctx.protocol = some p)
    (h0 : 0 ≤ ctx.current_step_index)
    (hl : ctx.current_step_index < (p.steps.length : Int)) :
    ∃ r, next_instruction it craw ctx u = .ok r ∧
      r.ctx.current_step_index
        = min (ctx.current_step_index + 1) ((p.steps.length : Int) - 1) ∧
      r.ctx.done
        = (min (ctx.current_step_index + 1) ((p.steps.length : Int) - 1)
            == (p.steps.length : Int) - 1) ∧
      r.done = r.ctx.done := by
  have hj0 : 0 ≤ min (ctx.current_step_index + 1) ((p.steps.length : Int) - 1) := by omega
  have hjl : min (ctx.current_step_index + 1) ((p.steps.length : Int) - 1)
      < (p.steps.length : Int) := by omega
  obtain ⟨s, hs⟩ := pyListGet_some p.steps _ hj0 hjl
  unfold next_instruction
  rw [hp]
  dsimp only
  rw [hs]
  exact ⟨_, rfl, rfl, rfl, rfl⟩

/-! ## Claims -/

/-- C1: for every valid context with a protocol set (step index a valid index
into its steps, as the data-model invariant guarantees), `next_instruction`
returns normally (never raises, never indexes out of bounds) and sets the
step index to `min(current + 1, len(steps) - 1)`; the index never decreases
and never exceeds `len(steps) - 1`; `done` is true exactly when the new index
is the last one, and the returned `done` agrees with the context's; a call
made when the index is already pinned at the last step (the `done = true`
situation) leaves it there. -/
theorem claim_C1 (it craw u : String) (ctx : LifeSaverContext) (p : ProtocolRecord)
    (hp : ctx.protocol = some p)
    (h0 : 0 ≤ ctx.current_step_index)
    (hl : ctx.current_step_index < (p.steps.length : Int)) :
    ∃ r, next_instruction it craw ctx u = .ok r ∧
      r.ctx.current_step_index
        = min (ctx.current_step_index + 1) ((p.steps.length : Int) - 1) ∧
      ctx.current_step_index ≤ r.ctx.current_step_index ∧
      r.ctx.current_step_index ≤ (p.steps.length : Int) - 1 ∧
      (r.ctx.done = true ↔ r.ctx.current_step_index = (p.steps.length : Int) - 1) ∧
      r.done = r.ctx.done ∧
      (ctx.current_step_index = (p.steps.length : Int) - 1 →
        r.ctx.current_step_index = ctx.current_step_index) := by
  obtain ⟨r, hok, hidx, hdone, hrd⟩ := ni_success hp h0 hl
  refine ⟨r, hok, hidx, ?_, ?_, ?_, hrd, ?_⟩
  · rw [hidx]; omega
  · rw [hidx]; omega
  · rw [hdone, hidx]
    simp [beq_iff_eq]
  · intro h
    rw [hidx, h]
    omega

/-- Witness for C1 at a concrete triaged context (cardiac arrest, index 0). -/
theorem claim_C1_witness :
    ∃ r, next_instruction "i" "c" triagedCardiacCtx "u" = .ok r ∧
      r.ctx.current_step_index
        = min (triagedCardiacCtx.current_step_index + 1)
            ((cardiac_arrest_protocol.steps.length : Int) - 1) ∧
      triagedCardiacCtx.current_step_index ≤ r.ctx.current_step_index ∧
      r.ctx.current_step_index ≤ (cardiac_arrest_protocol.steps.length : Int) - 1 ∧
      (r.ctx.done = true ↔
        r.ctx.current_step_index = (cardiac_arrest_protocol.steps.length : Int) - 1) ∧
      r.done = r.ctx.done ∧
      (triagedCardiacCtx.current_step_index
          = (cardiac_arrest_protocol.steps.length : Int) - 1 →
        r.ctx.current_step_index = triagedCardiacCtx.current_step_index) :=
  claim_C1 "i" "c" "u" triagedCardiacCtx cardiac_arrest_protocol rfl (by decide) (by decide)

/-- C3: `get_protocol` succeeds on each of the five defined emergency types
with a non-empty title, a non-empty ordered step sequence and a non-empty
stop condition; on every other string it returns the tagged error carrying
that string and no protocol data (the error constructor holds only the
message). -/
theorem claim_C3 (s : String) :
    ((s = "cardiac_arrest" ∨ s = "choking" ∨ s = "possible_stroke" ∨
        s = "anaphylaxis" ∨ s = "unconscious_but_breathing") →
      ∃ p, get_protocol s = .success p ∧
        p.title ≠ "" ∧ p.steps ≠ [] ∧ p.stop_condition ≠ "") ∧
    ((s ≠ "cardiac_arrest" ∧ s ≠ "choking" ∧ s ≠ "possible_stroke" ∧
        s ≠ "anaphylaxis" ∧ s ≠ "unconscious_but_breathing") →
      get_protocol s = .error ("Unknown emergency_type: " ++ s ++ ".")) := by
  constructor
  · rintro (rfl | rfl | rfl | rfl | rfl)
    · exact ⟨cardiac_arrest_protocol, rfl, by decide, by decide, by decide⟩
    · exact ⟨choking_protocol, rfl, by decide, by decide, by decide⟩
    · exact ⟨possible_stroke_protocol, rfl, by decide, by decide, by decide⟩
    · exact ⟨anaphylaxis_protocol, rfl, by decide, by decide, by decide⟩
    · exact ⟨unconscious_but_breathing_protocol, rfl, by decide, by decide, by decide⟩
  · rintro ⟨h1, h2, h3, h4, h5⟩
    have e1 : (s == "cardiac_arrest") = false := beq_eq_false_iff_ne.mpr h1
    have e2 : (s == "choking") = false := beq_eq_false_iff_ne.mpr h2
    have e3 : (s == "possible_stroke") = false := beq_eq_false_iff_ne.mpr h3
    have e4 : (s == "anaphylaxis") = false := beq_eq_false_iff_ne.mpr h4
    have e5 : (s == "unconscious_but_breathing") = false := beq_eq_false_iff_ne.mpr h5
    simp [get_protocol, PROTOCOLS, List.lookup, e1, e2, e3, e4, e5]

/-- Witness for C3: a defined type succeeds, an unrecognized one fails with
the tagged message. -/
theorem claim_C3_witness :
    (∃ p, get_protocol "choking" = .success p ∧
      p.title ≠ "" ∧ p.steps ≠ [] ∧ p.stop_condition ≠ "") ∧
    get_protocol "zebra" = .error ("Unknown emergency_type: " ++ "zebra" ++ ".") :=
  ⟨(claim_C3 "choking").1 (Or.inr (Or.inl rfl)),
   (claim_C3 "zebra").2 (by refine ⟨?_, ?_, ?_, ?_, ?_⟩ <;> decide)⟩

/-- C2 counterexample: a triage-collaborator output that is valid JSON but
not an object (here the list `[]`) makes `triage` raise `AttributeError` at
`triage_json.get("emergency_type")`, before the emergency type is assigned —
so after this call the context's emergency type is still null, refuting
"after any call to triage, the context's emergency type is non-null". -/
theorem claim_C2_counterexample :
    triageRaised (triage (.ok (.arr [])) "[]" (start_session "s") "help") = true ∧
    (ctxAfterTriage (triage (.ok (.arr [])) "[]" (start_session "s") "help")).emergency_type
      = none :=
  ⟨rfl, rfl⟩

/-- C2 (amended): after any call to `triage` whose collaborator output either
failed JSON decoding (fallback payload substituted) or decoded to a JSON
object, the context's emergency type is non-null; on normal return the
protocol is set, the step index is 0 and `done` is cleared; on any raise the
protocol is unchanged — in particular it remains unset when triage had not
previously succeeded. (An output decoding to a non-object JSON value instead
raises `AttributeError` before the emergency type is assigned.) -/
theorem claim_C2_amended (parsed : Except Unit JsonValue) (t m : String)
    (ctx : LifeSaverContext)
    (hshape : parsed = .error () ∨ ∃ fs, parsed = .ok (.obj fs)) :
    (∀ c', triage parsed t ctx m = .ok c' →
      c'.emergency_type.isSome = true ∧ c'.protocol.isSome = true ∧
      c'.current_step_index = 0 ∧ c'.done = false) ∧
    (∀ e c', triage parsed t ctx m = .error (e, c') →
      c'.emergency_type.isSome = true ∧ c'.protocol = ctx.protocol) := by
  constructor
  · intro c' h
    exact triage_ok_state h
  · intro e c' h
    unfold triage at h
    dsimp only at h
    split at h
    · rename_i hu heq
      exfalso
      rcases hshape with hE | ⟨fs, hO⟩
      · subst hE
        simp [jsonGet, fallbackTriageJson] at heq
      · subst hO
        simp [jsonGet] at heq
    · split at h
      · injection h with h
        injection h with h1 h2
        subst h2
        exact ⟨rfl, rfl⟩
      · split at h
        · injection h with h
          injection h with h1 h2
          subst h2
          exact ⟨rfl, rfl⟩
        · exact absurd h (by simp)

/-- Witness for C2 (amended): an unrecognized emergency type on a fresh
session — the lookup fails, the error is surfaced, the emergency type is set
and the protocol stays unset. -/
theorem claim_C2_witness :
    (ctxAfterTriage (triage (.ok (.obj [("emergency_type", .str "zebra")])) "t"
        (start_session "s") "m")).emergency_type.isSome = true ∧
    (ctxAfterTriage (triage (.ok (.obj [("emergency_type", .str "zebra")])) "t"
        (start_session "s") "m")).protocol = (start_session "s").protocol :=
  (claim_C2_amended (.ok (.obj [("emergency_type", .str "zebra")])) "t" "m"
      (start_session "s") (Or.inr ⟨_, rfl⟩)).2
    (.runtimeError ("Protocol lookup failed: " ++ "Unknown emergency_type: zebra."))
    _ rfl

/-- C5 counterexample: the collaborator output `"42"` is valid JSON, so
`json.loads` succeeds with a non-dict value and the `JSONDecodeError` handler
does not fire; `triage` then raises `AttributeError` — a malformed output
surfacing as an error that is not a protocol-lookup failure, and the lookup
is never reached (only three events are logged). -/
theorem claim_C5_counterexample :
    triageErr (triage (.ok (.num 42)) "42" (start_session "s") "m")
      = some .attributeError ∧
    (ctxAfterTriage (triage (.ok (.num 42)) "42" (start_session "s") "m")).events.map
        (fun e => e.type)
      = ["user_message", "triage_output_raw", "triage_output_parsed"] :=
  ⟨rfl, rfl⟩

/-- C5 (amended): whenever the triage-collaborator output fails JSON parsing,
no error surfaces: the null-confidence fallback payload is substituted and
logged as the `triage_output_parsed` event, the operation proceeds to the
protocol lookup with the default type (which succeeds), and `triage` returns
normally. An output that parses to a non-object JSON value, however, raises
`AttributeError`, so only strictly unparseable output is handled this way. -/
theorem claim_C5_amended (t m : String) (ctx : LifeSaverContext) :
    triage (.error ()) t ctx m = .ok
      { ctx with
        events := ctx.events ++
          [ { type := "user_message", content := .text m }
          , { type := "triage_output_raw", content := .text t }
          , { type := "triage_output_parsed", content := .json fallbackTriageJson }
          , { type := "protocol_lookup",
              content := .lookup (.success unconscious_but_breathing_protocol) } ]
        emergency_type := some (.str "unconscious_but_breathing")
        protocol := some unconscious_but_breathing_protocol
        current_step_index := 0
        done := false } := by
  unfold triage
  dsimp only
  norm_num [jsonGet, fallbackTriageJson, truthy, get_protocol_py, get_protocol,
    PROTOCOLS, List.lookup]
  rfl

/-- C6 counterexample: `generate_emt_report` on a fresh session (no triage
performed, no protocol) does not fail — it returns the collaborator's report
and appends the `emt_report` event, refuting "generate_emt_report ... fails
fatally" before triage. -/
theorem claim_C6_counterexample :
    generate_emt_report "Report text." (start_session "s")
      = ("Report text.",
         { session_id := "s"
           events := [{ type := "emt_report", content := .text "Report text." }] }) :=
  rfl

/-- C6 (amended): calling `next_instruction` on a context without a protocol
raises `RuntimeError` and leaves the context unchanged; `generate_emt_report`
performs no such precondition check and proceeds normally even when triage
has not succeeded. -/
theorem claim_C6_amended (it craw u rt : String) (ctx : LifeSaverContext)
    (h : ctx.protocol = none) :
    next_instruction it craw ctx u
      = .error (.runtimeError "Protocol is not set. Did you forget to run triage()?", ctx) ∧
    generate_emt_report rt ctx
      = (rt, { ctx with events := ctx.events ++
          [{ type := "emt_report", content := .text rt }] }) := by
  constructor
  · unfold next_instruction
    rw [h]
  · rfl

/-- Witness for C6 (amended) on a fresh session. -/
theorem claim_C6_witness :
    next_instruction "i" "c" (start_session "s") "u"
      = .error (.runtimeError "Protocol is not set. Did you forget to run triage()?",
          start_session "s") ∧
    generate_emt_report "r" (start_session "s")
      = ("r", { start_session "s" with events := (start_session "s").events ++
          [{ type := "emt_report", content := .text "r" }] }) :=
  claim_C6_amended "i" "c" "u" "r" (start_session "s") rfl

/-- C4 counterexample: a reachable context (fresh session, one triage call
whose protocol lookup fails on the unrecognized type "zebra") in which the
emergency type is set but the protocol is unset — `triage` assigns
`ctx.emergency_type` before checking the lookup result, so the
"both set or both unset" invariant fails after a failed triage. -/
theorem claim_C4_counterexample :
    Reachable (ctxAfterTriage (triage (.ok (.obj [("emergency_type", .str "zebra")])) "t"
      (start_session "s") "m")) ∧
    (ctxAfterTriage (triage (.ok (.obj [("emergency_type", .str "zebra")])) "t"
      (start_session "s") "m")).emergency_type.isSome = true ∧
    (ctxAfterTriage (triage (.ok (.obj [("emergency_type", .str "zebra")])) "t"
      (start_session "s") "m")).protocol = none :=
  ⟨@Reachable.triage_err (start_session "s")
      (ctxAfterTriage (triage (.ok (.obj [("emergency_type", .str "zebra")])) "t"
        (start_session "s") "m"))
      (.ok (.obj [("emergency_type", .str "zebra")])) "t" "m"
      (.runtimeError ("Protocol lookup failed: " ++ "Unknown emergency_type: zebra."))
      (Reachable.start "s") rfl,
    rfl, rfl⟩

/-- C4 (amended): over every context reachable by any sequence of
orchestrator operations, only one direction of the claimed invariant holds —
whenever the protocol is set, the emergency type is set as well. The
converse fails after a triage call whose protocol lookup fails (see the
counterexample). -/
theorem claim_C4_amended (c : LifeSaverContext) (h : Reachable c) :
    c.protocol.isSome = true → c.emergency_type.isSome = true := by
  induction h with
  | start sid => intro hp; simp [start_session] at hp
  | triage_ok _ hok _ => intro _; exact (triage_ok_state hok).1
  | triage_err _ herr ih =>
      obtain ⟨hp, he⟩ := triage_err_state herr
      rw [hp]
      rcases he with he | he
      · rw [he]; exact ih
      · intro _; exact he
  | ni_ok _ hok ih =>
      obtain ⟨hp, he, _, _⟩ := ni_ok_spec hok
      rw [hp, he]; exact ih
  | ni_err _ herr ih =>
      obtain ⟨hp, he⟩ := ni_err_state herr
      rw [hp, he]; exact ih
  | report rt _ ih => exact ih

/-- Witness for C4 (amended) at a reachable post-triage context whose
protocol is set. -/
theorem claim_C4_witness :
    (ctxAfterTriage (triage (.error ()) "x" (start_session "s") "m")).emergency_type.isSome
      = true :=
  claim_C4_amended _
    (@Reachable.triage_ok (start_session "s")
      (ctxAfterTriage (triage (.error ()) "x" (start_session "s") "m"))
      (.error ()) "x" "m" (Reachable.start "s") rfl)
    rfl

/-- C7: after one successful `triage` followed by one successful
`next_instruction` on a fresh session, the event log's kinds appear in
exactly the fixed order `user_message`, `triage_output_raw`,
`triage_output_parsed`, `protocol_lookup`, `user_update`,
`instruction_output_raw`, `calming_output_raw`. -/
theorem claim_C7 (sid t m it craw u : String) (parsed : Except Unit JsonValue)
    (c1 : LifeSaverContext) (r : NextInstructionResult)
    (h1 : triage parsed t (start_session sid) m = .ok c1)
    (h2 : next_instruction it craw c1 u = .ok r) :
    r.ctx.events.map (fun e => e.type)
      = ["user_message", "triage_output_raw", "triage_output_parsed", "protocol_lookup",
         "user_update", "instruction_output_raw", "calming_output_raw"] := by
  have e1 := triage_ok_event_kinds h1
  have e2 := (ni_ok_spec h2).2.2.1
  rw [e2]
  simp [e1, start_session]

/-- Witness for C7 on a concrete successful run (unparseable triage output,
so the default protocol is used). -/
theorem claim_C7_witness :
    (resOfNI (next_instruction "i" "c"
        (ctxAfterTriage (triage (.error ()) "x" (start_session "s") "m")) "u")).ctx.events.map
        (fun e => e.type)
      = ["user_message", "triage_output_raw", "triage_output_parsed", "protocol_lookup",
         "user_update", "instruction_output_raw", "calming_output_raw"] :=
  claim_C7 "s" "x" "m" "i" "c" "u" (.error ()) _ _ rfl rfl

/-- C8: whenever the calming collaborator's output is empty or
whitespace-only (it strips to the empty string), `next_instruction` returns
the fixed fallback reassurance sentence verbatim as the calming message;
otherwise it returns the collaborator's text unchanged. -/
theorem claim_C8 (it craw u : String) (ctx : LifeSaverContext)
    (r : NextInstructionResult)
    (h : next_instruction it craw ctx u = .ok r) :
    (pyStrip craw = "" → r.calming_message = fallbackCalming) ∧
    (pyStrip craw ≠ "" → r.calming_message = craw) := by
  have hc := (ni_ok_spec h).2.2.2
  constructor
  · intro hb
    rw [hc]
    simp [hb]
  · intro hb
    have hne : craw ≠ "" := by
      intro h0
      subst h0
      exact hb rfl
    rw [hc]
    simp [hb, hne]

/-- Witness for C8 at a whitespace-only calming output on a valid context. -/
theorem claim_C8_witness :
    (pyStrip " " = "" →
      (resOfNI (next_instruction "i" " " triagedCardiacCtx "u")).calming_message
        = fallbackCalming) ∧
    (pyStrip " " ≠ "" →
      (resOfNI (next_instruction "i" " " triagedCardiacCtx "u")).calming_message = " ") :=
  claim_C8 "i" " " "u" triagedCardiacCtx _ rfl

/-- C9: because the assignment uses Python `or` on the parsed field, the
default emergency type "unconscious_but_breathing" is substituted whenever
the `emergency_type` field of the parsed object is absent or any falsy value
(None, the empty string, False, 0, an empty list or dict) — triage then
proceeds with the default type and succeeds. -/
theorem claim_C9 (t m : String) (ctx : LifeSaverContext)
    (fs : List (String × JsonValue))
    (h : truthy ((fs.lookup "emergency_type").getD JsonValue.null) = false) :
    triage (.ok (.obj fs)) t ctx m = .ok
      { ctx with
        events := ctx.events ++
          [ { type := "user_message", content := .text m }
          , { type := "triage_output_raw", content := .text t }
          , { type := "triage_output_parsed", content := .json (.obj fs) }
          , { type := "protocol_lookup",
              content := .lookup (.success unconscious_but_breathing_protocol) } ]
        emergency_type := some (.str "unconscious_but_breathing")
        protocol := some unconscious_but_breathing_protocol
        current_step_index := 0
        done := false } := by
  unfold triage
  dsimp only
  norm_num [jsonGet, h, get_protocol_py, get_protocol, PROTOCOLS, List.lookup]
  rfl

/-- Witness for C9 at the falsy field value `""` (the empty string). -/
theorem claim_C9_witness :
    triage (.ok (.obj [("emergency_type", JsonValue.str "")])) "t" (start_session "s") "m"
      = .ok
      { session_id := "s"
        events :=
          [ { type := "user_message", content := .text "m" }
          , { type := "triage_output_raw", content := .text "t" }
          , { type := "triage_output_parsed",
              content := .json (.obj [("emergency_type", JsonValue.str "")]) }
          , { type := "protocol_lookup",
              content := .lookup (.success unconscious_but_breathing_protocol) } ]
        emergency_type := some (.str "unconscious_but_breathing")
        protocol := some unconscious_but_breathing_protocol
        current_step_index := 0
        done := false } :=
  claim_C9 "t" "m" (start_session "s") [("emergency_type", JsonValue.str "")] rfl

/-- C10: the `calming_output_raw` event appended by `next_instruction`
records the raw collaborator output before fallback substitution — when that
output strips to empty, the logged payload is the blank text while the
returned calming message is the fallback sentence, so the two differ. -/
theorem claim_C10 (it craw u : String) (ctx : LifeSaverContext)
    (r : NextInstructionResult)
    (h : next_instruction it craw ctx u = .ok r)
    (hb : pyStrip craw = "") :
    r.ctx.events.getLast?
      = some { type := "calming_output_raw", content := .text craw } ∧
    r.calming_message = fallbackCalming ∧
    r.calming_message ≠ craw := by
  obtain ⟨-, -, hev, hc⟩ := ni_ok_spec h
  have h2 : r.calming_message = fallbackCalming := by
    rw [hc]
    simp [hb]
  refine ⟨?_, h2, ?_⟩
  · rw [hev]
    rw [show ctx.events ++
        [ { type := "user_update", content := EventContent.text u }
        , { type := "instruction_output_raw", content := EventContent.text it }
        , { type := "calming_output_raw", content := EventContent.text craw } ]
      = (ctx.events ++
        [ { type := "user_update", content := EventContent.text u }
        , { type := "instruction_output_raw", content := EventContent.text it } ]) ++
        [ { type := "calming_output_raw", content := EventContent.text craw } ] by simp]
    exact List.getLast?_concat _
  · rw [h2]
    intro hEq
    rw [← hEq] at hb
    exact absurd hb (by decide)

/-- Witness for C10: blank calming output on a valid context — the event
holds the blank text, the returned message is the fallback, and they
differ. -/
theorem claim_C10_witness :
    (resOfNI (next_instruction "i" " " triagedCardiacCtx "u")).ctx.events.getLast?
      = some { type := "calming_output_raw", content := .text " " } ∧
    (resOfNI (next_instruction "i" " " triagedCardiacCtx "u")).calming_message
      = fallbackCalming ∧
    (resOfNI (next_instruction "i" " " triagedCardiacCtx "u")).calming_message ≠ " " :=
  claim_C10 "i" " " "u" triagedCardiacCtx _ rfl rfl
